import Mathlib

/-!
# db-query-lambda: connection negotiation and row flattening

A shallow embedding of `cmd/lambda/main.go`.  The three functions of the
handler (`handleRequest`, `createDatabaseConnection`, `queryDatabase`) are
translated statement by statement.  Everything the handler calls outside the
repository (`viper`, `rdsutils.BuildAuthToken`, `database/sql`, the drivers)
is a parameter: `Config` holds the settings read through `viper`, `Env` holds
the answers of the signing call, of `sql.Open` and of `db.Query`.  Every
external call and every log line is appended to a trace, so that statements
about "which calls were made, in which order" are statements about a list.
-/

namespace DbQueryLambda

/-! ## Data model -/

/-- Go `error` value, identified by the text of `Error()`. -/
structure GoError where
  msg : String
deriving DecidableEq, Repr

deriving instance DecidableEq for Except

/-- The dynamic value found in an `interface{}` scan slot after `rows.Scan`:
the `driver.Value` kinds of `database/sql`.  A `float64` and a `time.Time` are
identified by the text Go prints for them (`%v`, resp. `String()`), a `[]byte`
by the text its bytes spell. -/
inductive Value where
  | int64 (n : Int)
  | float64 (text : String)
  | bool (b : Bool)
  | bytes (s : String)
  | str (s : String)
  | time (text : String)
  | nil
deriving DecidableEq, Repr

/-- The result of `fmt.Sprintf("%s", v)` for `v : interface{}` (line 139).
The verb `%s` is defined for strings, byte slices and values with a `String()`
method; for every other operand `fmt` emits its bad-verb form
`%!s(type=value)`, and `%!s(<nil>)` for a nil interface. -/
def sprintfS : Value → String
  | .int64 n => "%!s(int64=" ++ toString n ++ ")"
  | .float64 text => "%!s(float64=" ++ text ++ ")"
  | .bool b => "%!s(bool=" ++ (if b then "true" else "false") ++ ")"
  | .bytes s => s
  | .str s => s
  | .time text => text
  | .nil => "%!s(<nil>)"

/-- Go `map[string]string`: a list of bindings with pairwise distinct keys. -/
structure GoMap where
  entries : List (String × String)
deriving DecidableEq, Repr

/-- The result of `make(map[string]string)`. -/
def GoMap.empty : GoMap := ⟨[]⟩

/-- Assignment on a list of bindings: overwrite the binding of `k` when there
is one, add a binding otherwise. -/
def assignEntries : List (String × String) → String → String → List (String × String)
  | [], k, v => [(k, v)]
  | (k', v') :: m, k, v =>
    if k' = k then (k', v) :: m else (k', v') :: assignEntries m k v

/-- The statement `m[k] = v`. -/
def GoMap.assign (m : GoMap) (k v : String) : GoMap := ⟨assignEntries m.entries k v⟩

/-- The key set of a map, as a list. -/
def GoMap.keys (m : GoMap) : List String := m.entries.map Prod.fst

/-- The expression `m[k]` with its presence flag. -/
def GoMap.lookup (m : GoMap) (k : String) : Option String :=
  (m.entries.find? (fun kv => kv.1 = k)).map Prod.snd

/-- What a `*sql.Rows` cursor delivers, as seen through `Next`, `Scan` and
`Err`: a row (with the values the driver hands to `Scan`, or the error `Scan`
returns for it), the regular end of the result set (`Next` is false, `Err()`
is nil), or an iteration error (`Next` is false, `Err()` is the error). -/
inductive RowStream where
  | eof
  | fail (err : GoError)
  | row (r : Except GoError (List Value)) (rest : RowStream)

/-- The rows a cursor delivers before `Next` becomes false. -/
def RowStream.rows : RowStream → List (Except GoError (List Value))
  | .eof => []
  | .fail _ => []
  | .row r rest => r :: rest.rows

/-- The value of `rows.Err()` once `Next` has become false. -/
def RowStream.err : RowStream → Option GoError
  | .eof => none
  | .fail e => some e
  | .row _ rest => rest.err

/-- The answer of a successful `db.Query`: column metadata (`rows.Columns()`)
and the cursor. -/
structure Rows where
  columns : Except GoError (List String)
  stream : RowStream

/-- `rows.Scan(dest...)` of `database/sql` for destinations of type
`*interface{}`: fails when the driver failed to deliver the row or when the
number of destinations differs from the number of values, and otherwise
stores each value in its slot. -/
def scan (r : Except GoError (List Value)) (ndest : Nat) : Except GoError (List Value) :=
  match r with
  | .error err => .error err
  | .ok vals =>
    if vals.length = ndest then .ok vals
    else .error ⟨"sql: expected " ++ toString vals.length
      ++ " destination arguments in Scan, not " ++ toString ndest⟩

/-- Lines 136-140: the loop `for i, colName := range cols` from index `i` on,
writing `m[colName] = fmt.Sprintf("%s", *val)`; an unfilled slot of
`make([]interface{}, len(cols))` holds nil. -/
def fillMap (columns : List Value) : List String → Nat → GoMap → GoMap
  | [], _, m => m
  | colName :: rest, i, m =>
    fillMap columns rest (i + 1) (m.assign colName (sprintfS (columns.getD i Value.nil)))

/-- Lines 136-140: the map built for one scanned row. -/
def flattenRow (cols : List String) (columns : List Value) : GoMap :=
  fillMap columns cols 0 GoMap.empty

/-- Lines 118-145: the loop `for rows.Next()` with the accumulator `results`.
When `Next` becomes false the loop ends and `results` is returned with a nil
error; the source does not consult `rows.Err()`. -/
def scanLoop (cols : List String) : RowStream → List GoMap → Except GoError (List GoMap)
  | .eof, results => .ok results
  | .fail _, results => .ok results
  | .row r rest, results =>
    match scan r cols.length with
    | .error err => .error err
    | .ok columns => scanLoop cols rest (results ++ [flattenRow cols columns])

/-! ## Environment, trace and state -/

/-- One observable step of a request. -/
inductive Event where
  | log (msg : String)
  | buildAuthToken (endpoint region dbUser : String)
  | createDatabaseConnection (engine user password host : String) (port : Int)
      (database : String)
  | sqlOpen (driverName dsn : String) (db : Option Nat)
  | dbQuery (db : Nat) (query : String)
  | dbClose (db : Nat)
deriving DecidableEq, Repr

/-- The state threaded through a request: the trace so far and the number of
handles `sql.Open` has handed out (the next handle). -/
structure World where
  trace : List Event
  nextDb : Nat
deriving DecidableEq, Repr

/-- Append one event to the trace. -/
def World.emit (w : World) (e : Event) : World := { w with trace := w.trace ++ [e] }

/-- The behaviour of the external services.  Each answer may depend on the
whole history of the process. -/
structure Env where
  buildAuthToken : List Event → String → String → String → Except GoError String
  sqlOpen : List Event → String → String → Option GoError
  dbQuery : List Event → Nat → String → Except GoError Rows

/-- The settings `handleRequest` reads through `viper` (lines 21-28). -/
structure Config where
  dbEngine : String
  dbHost : String
  dbUser : String
  dbPort : Int
  dbPasswordInitial : String
  dbSwitchToIamAuth : Bool
  region : String
  dbName : String

/-- The type `payload.QueryRequest`. -/
structure QueryRequest where
  Query : String
  Database : String

/-- The type `payload.QueryResponse`. -/
structure QueryResponse where
  Rows : List GoMap
deriving DecidableEq, Repr

/-! ## The handler -/

/-- Lines 104-146, `queryDatabase`. -/
def queryDatabase (env : Env) (w : World) (db : Nat) (query : String) :
    Except GoError (List GoMap) × World :=
  let w1 := w.emit (.dbQuery db query)
  match env.dbQuery w.trace db query with
  | .error err => (.error err, w1)
  | .ok rows =>
    match rows.columns with
    | .error err => (.error err, w1)
    | .ok cols => (scanLoop cols rows.stream [], w1)

/-- The named results `(db, err)` of `createDatabaseConnection` at its return.
Three combinations occur: no handle and an error (`sql.Open` failed or the
engine is not supported), a handle and an error (the probe failed; the handle
is returned as it is), a handle and no error. -/
inductive ConnResult where
  | failed (db : Option Nat) (err : GoError)
  | connected (db : Nat)
deriving DecidableEq, Repr

/-- Lines 97-101 of `createDatabaseConnection`: the answer of `sql.Open`, the
probe that follows when it is nil, and the return. -/
def probe (env : Env) (w : World) (driverName dsn : String) : ConnResult × World :=
  match env.sqlOpen w.trace driverName dsn with
  | some err => (.failed none err, w.emit (.sqlOpen driverName dsn none))
  | none =>
    let db := w.nextDb
    let w1 : World :=
      { trace := w.trace ++ [.sqlOpen driverName dsn (some db)], nextDb := db + 1 }
    let w2 := w1.emit (.log "checking connection and auth")
    match queryDatabase env w2 db "SELECT 1" with
    | (.error err, w3) => (.failed (some db) err, w3)
    | (.ok _, w3) => (.connected db, w3)

/-- Lines 84-102, `createDatabaseConnection`. -/
def createDatabaseConnection (env : Env) (w : World) (engine user password host : String)
    (port : Int) (database : String) : ConnResult × World :=
  let w0 := w.emit (.createDatabaseConnection engine user password host port database)
  if engine = "mysql" then
    let dsn := user ++ ":" ++ password ++ "@tcp(" ++ host ++ ":" ++ toString port ++ ")/"
      ++ database ++ "?tls=true&allowCleartextPasswords=1"
    probe env w0 "mysql" dsn
  else if engine = "postgres" then
    let dsn := "user=" ++ user ++ " password=" ++ password ++ " host=" ++ host ++ " port="
      ++ toString port ++ " dbname=" ++ database ++ " sslmode=verify-full"
    probe env (w0.emit (.log dsn)) "postgres" dsn
  else
    (.failed none ⟨"invalid database engine specified"⟩, w0)

/-- Lines 67-81 of `handleRequest`: the query on the negotiated handle `db`;
the deferred `db.Close()` runs on both returns. -/
def runQuery (env : Env) (w : World) (db : Nat) (req : QueryRequest) :
    Except GoError QueryResponse × World :=
  let w1 := w.emit (.log "querying database")
  match queryDatabase env w1 db req.Query with
  | (.error err, w2) =>
    let w3 := w2.emit (.log ("unable to query dabase " ++ err.msg))
    (.error err, w3.emit (.dbClose db))
  | (.ok results, w2) =>
    let w3 := w2.emit (.log ("got " ++ toString results.length ++ " rows from database"))
    (.ok ⟨results⟩, w3.emit (.dbClose db))

/-- Lines 20-82, `handleRequest`.  The branch of lines 60-62
(`dbSwitchToIamAuth`) has an empty body and leaves no step. -/
def handleRequest (cfg : Config) (env : Env) (w : World) (req : QueryRequest) :
    Except GoError QueryResponse × World :=
  let dbName := if req.Database ≠ "" then req.Database else cfg.dbName
  let w1 := w.emit (.log "getting RDS IAM auth token")
  let endpoint := cfg.dbHost ++ ":" ++ toString cfg.dbPort
  let w2 := w1.emit (.buildAuthToken endpoint cfg.region cfg.dbUser)
  match env.buildAuthToken w1.trace endpoint cfg.region cfg.dbUser with
  | .error err =>
    (.error err, w2.emit (.log ("unable to generate database token " ++ err.msg)))
  | .ok token =>
    let w3 := w2.emit (.log "creating database connection")
    match createDatabaseConnection env w3 cfg.dbEngine cfg.dbUser token cfg.dbHost
        cfg.dbPort dbName with
    | (.failed _ err, w4) =>
      let w5 := w4.emit (.log ("unable to open db connection using iam auth " ++ err.msg))
      match createDatabaseConnection env w5 cfg.dbEngine cfg.dbUser cfg.dbPasswordInitial
          cfg.dbHost cfg.dbPort dbName with
      | (.failed _ err2, w6) =>
        (.error err2,
          w6.emit (.log ("unable to open db connection using initial password " ++ err2.msg)))
      | (.connected db, w6) =>
        runQuery env (w6.emit (.log "connected to the database using initial password")) db req
    | (.connected db, w4) =>
      runQuery env (w4.emit (.log "connected to the database using IAM auth")) db req

/-! ## Observations on traces -/

/-- The events a run that started in `w` and ended in `w'` added to the trace. -/
def eventsSince (w w' : World) : List Event := w'.trace.drop w.trace.length

/-- Calls of `createDatabaseConnection`. -/
def Event.isConnectionAttempt : Event → Bool
  | .createDatabaseConnection .. => true
  | _ => false

/-- Calls of `rdsutils.BuildAuthToken`. -/
def Event.isBuildAuthToken : Event → Bool
  | .buildAuthToken .. => true
  | _ => false

/-- Calls of `sql.Open`. -/
def Event.isSqlOpen : Event → Bool
  | .sqlOpen .. => true
  | _ => false

/-- Calls of `db.Query`. -/
def Event.isDbQuery : Event → Bool
  | .dbQuery .. => true
  | _ => false

/-- The connection attempts of a trace, in order. -/
def connectionAttempts (t : List Event) : List Event := t.filter Event.isConnectionAttempt

/-- Replay of a trace on a set of open handles: a successful `sql.Open` adds
its handle, `db.Close()` removes it. -/
def openHandles : List Event → List Nat → List Nat
  | [], hs => hs
  | .sqlOpen _ _ (some db) :: t, hs => openHandles t (hs ++ [db])
  | .dbClose db :: t, hs => openHandles t (hs.erase db)
  | _ :: t, hs => openHandles t hs

/-- The database name of lines 28-31: the request's when it is non-empty, the
configured one otherwise. -/
def effectiveDatabase (cfg : Config) (req : QueryRequest) : String :=
  if req.Database ≠ "" then req.Database else cfg.dbName

/-- The argument `fmt.Sprintf("%s:%d", dbHost, dbPort)` of line 36. -/
def endpoint (cfg : Config) : String := cfg.dbHost ++ ":" ++ toString cfg.dbPort

/-- The answer of `rdsutils.BuildAuthToken` to the call of line 36, in a request
that starts in `w`. -/
def signing (cfg : Config) (env : Env) (w : World) : Except GoError String :=
  env.buildAuthToken (w.trace ++ [Event.log "getting RDS IAM auth token"]) (endpoint cfg)
    cfg.region cfg.dbUser

/-- The state in which line 46 calls `createDatabaseConnection`, in a request
that starts in `w`. -/
def beforeIdentity (cfg : Config) (w : World) : World :=
  ((w.emit (.log "getting RDS IAM auth token")).emit
    (.buildAuthToken (endpoint cfg) cfg.region cfg.dbUser)).emit
    (.log "creating database connection")

/-- The call of line 46: the connection attempt with the signed token. -/
def identityAttempt (cfg : Config) (env : Env) (w : World) (req : QueryRequest)
    (token : String) : ConnResult × World :=
  createDatabaseConnection env (beforeIdentity cfg w) cfg.dbEngine cfg.dbUser token
    cfg.dbHost cfg.dbPort (effectiveDatabase cfg req)

/-- The call of line 53: the connection attempt with the static secret, made
in the state `w4` the identity attempt left, after its error `err` is logged. -/
def fallbackAttempt (cfg : Config) (env : Env) (w4 : World) (req : QueryRequest)
    (err : GoError) : ConnResult × World :=
  createDatabaseConnection env
    (w4.emit (.log ("unable to open db connection using iam auth " ++ err.msg)))
    cfg.dbEngine cfg.dbUser cfg.dbPasswordInitial cfg.dbHost cfg.dbPort
    (effectiveDatabase cfg req)

/-! ## Concrete environments -/

/-- A configuration for a PostgreSQL instance. -/
def pgConfig : Config :=
  { dbEngine := "postgres", dbHost := "db.local", dbUser := "app", dbPort := 5432,
    dbPasswordInitial := "initial", dbSwitchToIamAuth := false, region := "eu-west-1",
    dbName := "main" }

/-- A fresh process: empty trace, no handle handed out. -/
def freshWorld : World := ⟨[], 0⟩

/-- The result set of `SELECT 1` as `lib/pq` delivers it: one column, one row,
the cell an `int64`. -/
def selectOneInt : Rows := ⟨.ok ["?column?"], .row (.ok [.int64 1]) .eof⟩

/-- The result set of `SELECT 1` as the MySQL driver delivers it: the cell is
the byte slice `1`. -/
def selectOneBytes : Rows := ⟨.ok ["1"], .row (.ok [.bytes "1"]) .eof⟩

/-- Two rows over the column list `a, a, b`. -/
def dupRows : Rows :=
  ⟨.ok ["a", "a", "b"],
    .row (.ok [.bytes "1", .bytes "2", .bytes "3"])
      (.row (.ok [.bytes "4", .bytes "5", .bytes "6"]) .eof)⟩

/-- A cursor that delivers the first row of a result set and then stops on a
transport error. -/
def cutRows : Rows :=
  ⟨.ok ["id"], .row (.ok [.bytes "1"]) (.fail ⟨"unexpected EOF"⟩)⟩

/-- An environment in which every call succeeds and every query answers `rows`. -/
def envAnswering (rows : Rows) : Env :=
  { buildAuthToken := fun _ _ _ _ => .ok "token"
    sqlOpen := fun _ _ _ => none
    dbQuery := fun _ _ _ => .ok rows }

/-- The events of lines 85-100 after the entry of `createDatabaseConnection`:
log lines, `sql.Open`, and the probe `SELECT 1`. -/
def Event.isProbeStep : Event → Bool
  | .log _ => true
  | .sqlOpen .. => true
  | .dbQuery _ query => query == "SELECT 1"
  | _ => false

/-- A configuration whose engine identifier is neither `mysql` nor `postgres`. -/
def oracleConfig : Config := { pgConfig with dbEngine := "oracle" }

/-- An environment without ambient credentials: signing fails, while the
database would accept every connection. -/
def envNoToken : Env :=
  { buildAuthToken := fun _ _ _ _ => .error ⟨"NoCredentialProviders"⟩
    sqlOpen := fun _ _ _ => none
    dbQuery := fun _ _ _ => .ok selectOneBytes }

/-- An environment in which the database rejects the signed token (the probe on
the first handle fails) and accepts the static secret. -/
def envTokenRejected : Env :=
  { buildAuthToken := fun _ _ _ _ => .ok "token"
    sqlOpen := fun _ _ _ => none
    dbQuery := fun _ db _ =>
      if db = 0 then .error ⟨"pq: password authentication failed"⟩ else .ok selectOneBytes }

/-- An environment in which the database rejects every credential. -/
def envAllRejected : Env :=
  { buildAuthToken := fun _ _ _ _ => .ok "token"
    sqlOpen := fun _ _ _ => none
    dbQuery := fun _ db _ =>
      if db = 0 then .error ⟨"pq: password authentication failed"⟩
      else .error ⟨"pq: no pg_hba.conf entry"⟩ }

/-! ## Auxiliary lemmas -/

theorem mem_assignEntries (m : List (String × String)) (k v x : String) :
    x ∈ (assignEntries m k v).map Prod.fst ↔ x = k ∨ x ∈ m.map Prod.fst := by
  induction m with
  | nil => simp [assignEntries]
  | cons kv m ih =>
    obtain ⟨k', v'⟩ := kv
    unfold assignEntries
    by_cases h : k' = k
    · subst h
      simp
    · simp only [h, if_false, List.map_cons, List.mem_cons, ih]
      tauto

theorem nodup_assignEntries (m : List (String × String)) (k v : String)
    (h : (m.map Prod.fst).Nodup) : ((assignEntries m k v).map Prod.fst).Nodup := by
  induction m with
  | nil => simp [assignEntries]
  | cons kv m ih =>
    obtain ⟨k', v'⟩ := kv
    unfold assignEntries
    simp only [List.map_cons, List.nodup_cons] at h
    by_cases hk : k' = k
    · subst hk
      simpa using h
    · simp only [hk, if_false, List.map_cons, List.nodup_cons, mem_assignEntries]
      refine ⟨?_, ih h.2⟩
      intro h1
      rcases h1 with h1 | h1
      · exact h1.elim
      · exact h.1 h1

theorem mem_keys_fillMap (columns : List Value) (cols : List String) (i : Nat) (m : GoMap)
    (x : String) : x ∈ (fillMap columns cols i m).keys ↔ x ∈ m.keys ∨ x ∈ cols := by
  induction cols generalizing i m with
  | nil => simp [fillMap]
  | cons c cols ih =>
    rw [fillMap, ih]
    simp only [GoMap.keys, GoMap.assign, mem_assignEntries, List.mem_cons]
    tauto

theorem nodup_keys_fillMap (columns : List Value) (cols : List String) (i : Nat) (m : GoMap)
    (h : m.keys.Nodup) : (fillMap columns cols i m).keys.Nodup := by
  induction cols generalizing i m with
  | nil => simpa [fillMap] using h
  | cons c cols ih =>
    simp only [fillMap]
    exact ih _ _ (nodup_assignEntries _ _ _ h)

theorem scanLoop_ok (cols : List String) (s : RowStream) (acc res : List GoMap)
    (h : scanLoop cols s acc = .ok res) :
    ∃ vs : List (List Value), s.rows = vs.map Except.ok ∧
      (∀ v ∈ vs, v.length = cols.length) ∧ res = acc ++ vs.map (flattenRow cols) := by
  induction s generalizing acc with
  | eof =>
    simp only [scanLoop, Except.ok.injEq] at h
    exact ⟨[], by simp [RowStream.rows], by simp, by simp [h]⟩
  | fail e =>
    simp only [scanLoop, Except.ok.injEq] at h
    exact ⟨[], by simp [RowStream.rows], by simp, by simp [h]⟩
  | row r rest ih =>
    cases r with
    | error e => simp [scanLoop, scan] at h
    | ok vals =>
      by_cases hl : vals.length = cols.length
      · simp only [scanLoop, scan, hl, if_true] at h
        obtain ⟨vs, h1, h2, h3⟩ := ih _ h
        refine ⟨vals :: vs, by simp [RowStream.rows, h1], ?_, by simp [h3]⟩
        intro v hv
        rcases List.mem_cons.1 hv with rfl | hv
        · exact hl
        · exact h2 v hv
      · simp [scanLoop, scan, hl] at h

/-! ## Traces of the handler -/

theorem queryDatabase_snd (env : Env) (w : World) (db : Nat) (query : String) :
    (queryDatabase env w db query).2 = w.emit (.dbQuery db query) := by
  unfold queryDatabase
  simp only []
  split
  · rfl
  · split <;> rfl

theorem probe_trace (env : Env) (w : World) (driverName dsn : String) :
    ∃ evs, (probe env w driverName dsn).2.trace = w.trace ++ evs ∧
      ∀ e ∈ evs, e.isProbeStep = true := by
  unfold probe
  cases env.sqlOpen w.trace driverName dsn with
  | some err => exact ⟨[.sqlOpen driverName dsn none], rfl, by simp [Event.isProbeStep]⟩
  | none =>
    refine ⟨[.sqlOpen driverName dsn (some w.nextDb), .log "checking connection and auth",
      .dbQuery w.nextDb "SELECT 1"], ?_, by simp [Event.isProbeStep]⟩
    simp only []
    split <;> rename_i heq <;>
    · have h2 := congrArg Prod.snd heq
      rw [queryDatabase_snd] at h2
      simp only [] at h2
      rw [← h2]
      simp [World.emit]

theorem createDatabaseConnection_trace (env : Env) (w : World)
    (engine user password host : String) (port : Int) (database : String) :
    ∃ evs, (createDatabaseConnection env w engine user password host port database).2.trace
        = w.trace ++ Event.createDatabaseConnection engine user password host port database
          :: evs ∧
      ∀ e ∈ evs, e.isProbeStep = true := by
  unfold createDatabaseConnection
  simp only []
  split
  · obtain ⟨evs, h1, h2⟩ := probe_trace env
      (w.emit (.createDatabaseConnection engine user password host port database)) "mysql"
      (user ++ ":" ++ password ++ "@tcp(" ++ host ++ ":" ++ toString port ++ ")/"
        ++ database ++ "?tls=true&allowCleartextPasswords=1")
    exact ⟨evs, by rw [h1]; simp [World.emit], h2⟩
  · split
    · obtain ⟨evs, h1, h2⟩ := probe_trace env
        ((w.emit (.createDatabaseConnection engine user password host port database)).emit
          (.log ("user=" ++ user ++ " password=" ++ password ++ " host=" ++ host ++ " port="
            ++ toString port ++ " dbname=" ++ database ++ " sslmode=verify-full"))) "postgres"
        ("user=" ++ user ++ " password=" ++ password ++ " host=" ++ host ++ " port="
            ++ toString port ++ " dbname=" ++ database ++ " sslmode=verify-full")
      refine ⟨Event.log ("user=" ++ user ++ " password=" ++ password ++ " host=" ++ host
        ++ " port=" ++ toString port ++ " dbname=" ++ database ++ " sslmode=verify-full")
        :: evs, by rw [h1]; simp [World.emit], ?_⟩
      intro e he
      rcases List.mem_cons.1 he with rfl | he
      · rfl
      · exact h2 e he
    · exact ⟨[], by simp [World.emit], by simp⟩

theorem runQuery_trace (env : Env) (w : World) (db : Nat) (req : QueryRequest) :
    ∃ m, (runQuery env w db req).2.trace = w.trace ++ [.log "querying database",
      .dbQuery db req.Query, .log m, .dbClose db] := by
  unfold runQuery
  simp only []
  split
  · rename_i err w3 heq
    have h2 := congrArg Prod.snd heq
    rw [queryDatabase_snd] at h2
    simp only [] at h2
    rw [← h2]
    exact ⟨"unable to query dabase " ++ err.msg, by simp [World.emit]⟩
  · rename_i results w3 heq
    have h2 := congrArg Prod.snd heq
    rw [queryDatabase_snd] at h2
    simp only [] at h2
    rw [← h2]
    exact ⟨"got " ++ toString results.length ++ " rows from database", by simp [World.emit]⟩

theorem handleRequest_eq (cfg : Config) (env : Env) (w : World) (req : QueryRequest) :
    handleRequest cfg env w req =
      match signing cfg env w with
      | .error err =>
        (.error err, ((w.emit (.log "getting RDS IAM auth token")).emit
          (.buildAuthToken (endpoint cfg) cfg.region cfg.dbUser)).emit
          (.log ("unable to generate database token " ++ err.msg)))
      | .ok token =>
        match identityAttempt cfg env w req token with
        | (.failed _ err, w4) =>
          match fallbackAttempt cfg env w4 req err with
          | (.failed _ err2, w6) =>
            (.error err2, w6.emit
              (.log ("unable to open db connection using initial password " ++ err2.msg)))
          | (.connected db, w6) =>
            runQuery env
              (w6.emit (.log "connected to the database using initial password")) db req
        | (.connected db, w4) =>
          runQuery env (w4.emit (.log "connected to the database using IAM auth")) db req := by
  rfl

theorem eventsSince_of_trace (w w' : World) (evs : List Event)
    (h : w'.trace = w.trace ++ evs) : eventsSince w w' = evs := by
  simp [eventsSince, h]

theorem beforeIdentity_trace (cfg : Config) (w : World) :
    (beforeIdentity cfg w).trace = w.trace ++ [.log "getting RDS IAM auth token",
      .buildAuthToken (endpoint cfg) cfg.region cfg.dbUser,
      .log "creating database connection"] := by
  simp [beforeIdentity, World.emit]

theorem identityAttempt_trace (cfg : Config) (env : Env) (w : World) (req : QueryRequest)
    (token : String) :
    ∃ evs, (identityAttempt cfg env w req token).2.trace
        = w.trace ++ ([.log "getting RDS IAM auth token",
            .buildAuthToken (endpoint cfg) cfg.region cfg.dbUser,
            .log "creating database connection",
            .createDatabaseConnection cfg.dbEngine cfg.dbUser token cfg.dbHost cfg.dbPort
              (effectiveDatabase cfg req)] ++ evs) ∧
      ∀ e ∈ evs, e.isProbeStep = true := by
  obtain ⟨evs, h1, h2⟩ := createDatabaseConnection_trace env (beforeIdentity cfg w)
    cfg.dbEngine cfg.dbUser token cfg.dbHost cfg.dbPort (effectiveDatabase cfg req)
  refine ⟨evs, ?_, h2⟩
  rw [identityAttempt, h1, beforeIdentity_trace]
  simp

theorem fallbackAttempt_trace (cfg : Config) (env : Env) (w4 : World) (req : QueryRequest)
    (err : GoError) :
    ∃ evs, (fallbackAttempt cfg env w4 req err).2.trace
        = w4.trace ++ ([.log ("unable to open db connection using iam auth " ++ err.msg),
            .createDatabaseConnection cfg.dbEngine cfg.dbUser cfg.dbPasswordInitial cfg.dbHost
              cfg.dbPort (effectiveDatabase cfg req)] ++ evs) ∧
      ∀ e ∈ evs, e.isProbeStep = true := by
  obtain ⟨evs, h1, h2⟩ := createDatabaseConnection_trace env
    (w4.emit (.log ("unable to open db connection using iam auth " ++ err.msg)))
    cfg.dbEngine cfg.dbUser cfg.dbPasswordInitial cfg.dbHost cfg.dbPort
    (effectiveDatabase cfg req)
  refine ⟨evs, ?_, h2⟩
  rw [fallbackAttempt, h1]
  simp [World.emit]

theorem connectionAttempts_probeSteps (evs : List Event)
    (h : ∀ e ∈ evs, e.isProbeStep = true) : connectionAttempts evs = [] := by
  rw [connectionAttempts, List.filter_eq_nil_iff]
  intro e he
  have := h e he
  cases e <;> simp_all [Event.isProbeStep, Event.isConnectionAttempt]

theorem createDatabaseConnection_invalid (env : Env) (w : World)
    (engine user password host : String) (port : Int) (database : String)
    (h1 : engine ≠ "mysql") (h2 : engine ≠ "postgres") :
    createDatabaseConnection env w engine user password host port database
      = (.failed none ⟨"invalid database engine specified"⟩,
          w.emit (.createDatabaseConnection engine user password host port database)) := by
  simp [createDatabaseConnection, h1, h2]

/-- The four ways through `handleRequest`, each with the result and the events
it adds to the trace. -/
theorem handleRequest_cases (cfg : Config) (env : Env) (w : World) (req : QueryRequest) :
    (∃ err, signing cfg env w = .error err ∧
      (handleRequest cfg env w req).1 = .error err ∧
      (handleRequest cfg env w req).2.trace = w.trace ++
        [.log "getting RDS IAM auth token",
          .buildAuthToken (endpoint cfg) cfg.region cfg.dbUser,
          .log ("unable to generate database token " ++ err.msg)]) ∨
    (∃ token db w4 p1 m, signing cfg env w = .ok token ∧
      identityAttempt cfg env w req token = (.connected db, w4) ∧
      (∀ e ∈ p1, e.isProbeStep = true) ∧
      (handleRequest cfg env w req).2.trace = w.trace ++
        ([.log "getting RDS IAM auth token",
          .buildAuthToken (endpoint cfg) cfg.region cfg.dbUser,
          .log "creating database connection",
          .createDatabaseConnection cfg.dbEngine cfg.dbUser token cfg.dbHost cfg.dbPort
            (effectiveDatabase cfg req)] ++ p1 ++
         [.log "connected to the database using IAM auth",
          .log "querying database", .dbQuery db req.Query, .log m, .dbClose db])) ∨
    (∃ token d1 e1 w4 d2 e2 w6 p1 p2, signing cfg env w = .ok token ∧
      identityAttempt cfg env w req token = (.failed d1 e1, w4) ∧
      fallbackAttempt cfg env w4 req e1 = (.failed d2 e2, w6) ∧
      (∀ e ∈ p1, e.isProbeStep = true) ∧ (∀ e ∈ p2, e.isProbeStep = true) ∧
      (handleRequest cfg env w req).1 = .error e2 ∧
      (handleRequest cfg env w req).2.trace = w.trace ++
        ([.log "getting RDS IAM auth token",
          .buildAuthToken (endpoint cfg) cfg.region cfg.dbUser,
          .log "creating database connection",
          .createDatabaseConnection cfg.dbEngine cfg.dbUser token cfg.dbHost cfg.dbPort
            (effectiveDatabase cfg req)] ++ p1 ++
         [.log ("unable to open db connection using iam auth " ++ e1.msg),
          .createDatabaseConnection cfg.dbEngine cfg.dbUser cfg.dbPasswordInitial cfg.dbHost
            cfg.dbPort (effectiveDatabase cfg req)] ++ p2 ++
         [.log ("unable to open db connection using initial password " ++ e2.msg)])) ∨
    (∃ token d1 e1 w4 db w6 p1 p2 m, signing cfg env w = .ok token ∧
      identityAttempt cfg env w req token = (.failed d1 e1, w4) ∧
      fallbackAttempt cfg env w4 req e1 = (.connected db, w6) ∧
      (∀ e ∈ p1, e.isProbeStep = true) ∧ (∀ e ∈ p2, e.isProbeStep = true) ∧
      (handleRequest cfg env w req).2.trace = w.trace ++
        ([.log "getting RDS IAM auth token",
          .buildAuthToken (endpoint cfg) cfg.region cfg.dbUser,
          .log "creating database connection",
          .createDatabaseConnection cfg.dbEngine cfg.dbUser token cfg.dbHost cfg.dbPort
            (effectiveDatabase cfg req)] ++ p1 ++
         [.log ("unable to open db connection using iam auth " ++ e1.msg),
          .createDatabaseConnection cfg.dbEngine cfg.dbUser cfg.dbPasswordInitial cfg.dbHost
            cfg.dbPort (effectiveDatabase cfg req)] ++ p2 ++
         [.log "connected to the database using initial password",
          .log "querying database", .dbQuery db req.Query, .log m, .dbClose db])) := by
  rw [handleRequest_eq]
  cases hs : signing cfg env w with
  | error err =>
    left
    exact ⟨err, rfl, rfl, by simp [World.emit]⟩
  | ok token =>
    right
    obtain ⟨p1, ht1, hp1⟩ := identityAttempt_trace cfg env w req token
    rcases hi : identityAttempt cfg env w req token with ⟨r1, w4⟩
    rw [hi] at ht1
    simp only [] at ht1
    cases r1 with
    | connected db =>
      left
      obtain ⟨m, hm⟩ := runQuery_trace env
        (w4.emit (.log "connected to the database using IAM auth")) db req
      refine ⟨token, db, w4, p1, m, rfl, hi, hp1, ?_⟩
      simp only [hi]
      rw [hm]
      simp [World.emit, ht1]
    | failed d1 e1 =>
      right
      obtain ⟨p2, ht2, hp2⟩ := fallbackAttempt_trace cfg env w4 req e1
      rcases hf : fallbackAttempt cfg env w4 req e1 with ⟨r2, w6⟩
      rw [hf] at ht2
      simp only [] at ht2
      cases r2 with
      | failed d2 e2 =>
        left
        refine ⟨token, d1, e1, w4, d2, e2, w6, p1, p2, rfl, hi, hf, hp1, hp2, ?_, ?_⟩
        · simp only [hi, hf]
        · simp only [hi, hf]
          simp [World.emit, ht2, ht1]
      | connected db =>
        right
        obtain ⟨m, hm⟩ := runQuery_trace env
          (w6.emit (.log "connected to the database using initial password")) db req
        refine ⟨token, d1, e1, w4, db, w6, p1, p2, m, rfl, hi, hf, hp1, hp2, ?_⟩
        simp only [hi, hf]
        rw [hm]
        simp [World.emit, ht2, ht1]

theorem probeSteps_not_attempt (p : List Event) (h : ∀ e ∈ p, e.isProbeStep = true)
    (engine user password host : String) (port : Int) (database : String) :
    Event.createDatabaseConnection engine user password host port database ∉ p := by
  intro hm
  simpa [Event.isProbeStep] using h _ hm

theorem probeSteps_not_close (p : List Event) (h : ∀ e ∈ p, e.isProbeStep = true) (db : Nat) :
    Event.dbClose db ∉ p := by
  intro hm
  simpa [Event.isProbeStep] using h _ hm

theorem probeSteps_query (p : List Event) (h : ∀ e ∈ p, e.isProbeStep = true) (db : Nat)
    (query : String) (hm : Event.dbQuery db query ∈ p) : query = "SELECT 1" := by
  simpa [Event.isProbeStep] using h _ hm

/-! ## Row flattening -/

/-- The errors `queryDatabase` checks: an error of `db.Query`, of
`rows.Columns()` or of `rows.Scan` on some delivered row makes the call return
an error, hence no rows. -/
theorem queryDatabase_checked_errors (env : Env) (w : World) (db : Nat) (query : String) :
    (∀ err, env.dbQuery w.trace db query = .error err →
      (queryDatabase env w db query).1 = .error err) ∧
    (∀ rows err, env.dbQuery w.trace db query = .ok rows → rows.columns = .error err →
      (queryDatabase env w db query).1 = .error err) ∧
    (∀ rows cols r err, env.dbQuery w.trace db query = .ok rows → rows.columns = .ok cols →
      r ∈ rows.stream.rows → scan r cols.length = .error err →
      ∃ err2, (queryDatabase env w db query).1 = .error err2) := by
  refine ⟨?_, ?_, ?_⟩
  · intro err hq
    simp [queryDatabase, hq]
  · intro rows err hq hc
    simp [queryDatabase, hq, hc]
  · intro rows cols r err hq hc hr hscan
    simp only [queryDatabase, hq, hc]
    cases hres : scanLoop cols rows.stream [] with
    | error err2 => exact ⟨err2, rfl⟩
    | ok res =>
      exfalso
      obtain ⟨vs, h1, h2, -⟩ := scanLoop_ok cols rows.stream [] res hres
      rw [h1, List.mem_map] at hr
      obtain ⟨v, hv, rfl⟩ := hr
      simp [scan, h2 v hv] at hscan

/-- C5 (evaluation at the failing input): the cursor delivers one row and then
stops on an iteration error (`rows.Err()` is `unexpected EOF`); `queryDatabase`
returns that one row together with a nil error. -/
theorem queryDatabase_iteration_error_returns_rows :
    cutRows.stream.err = some ⟨"unexpected EOF"⟩ ∧
    (queryDatabase (envAnswering cutRows) freshWorld 0 "SELECT id FROM t").1
      = .ok [⟨[("id", "1")]⟩] := by
  decide

/-- C6: when `queryDatabase` succeeds, `db.Query` and `rows.Columns()` succeeded
and every row map of the result has pairwise distinct keys which are exactly
the column names reported by `rows.Columns()`, also when a name occurs more
than once in the column list. -/
theorem queryDatabase_key_set (env : Env) (w : World) (db : Nat) (query : String)
    (res : List GoMap) (h : (queryDatabase env w db query).1 = .ok res) :
    ∃ rows cols, env.dbQuery w.trace db query = .ok rows ∧ rows.columns = .ok cols ∧
      ∀ m ∈ res, m.keys.Nodup ∧ ∀ k, k ∈ m.keys ↔ k ∈ cols := by
  unfold queryDatabase at h
  cases hq : env.dbQuery w.trace db query with
  | error e => simp [hq] at h
  | ok rows =>
    cases hc : rows.columns with
    | error e => simp [hq, hc] at h
    | ok cols =>
      simp only [hq, hc] at h
      obtain ⟨vs, -, -, h3⟩ := scanLoop_ok cols rows.stream [] res h
      refine ⟨rows, cols, rfl, hc, ?_⟩
      intro m hm
      rw [h3, List.nil_append, List.mem_map] at hm
      obtain ⟨v, -, rfl⟩ := hm
      refine ⟨nodup_keys_fillMap v cols 0 GoMap.empty (by simp [GoMap.keys, GoMap.empty]), ?_⟩
      intro k
      rw [flattenRow, mem_keys_fillMap]
      simp [GoMap.keys, GoMap.empty]

/-- Witness of C6: a result of two rows over the column list `a, a, b`. -/
theorem queryDatabase_key_set_witness :
    (queryDatabase (envAnswering dupRows) freshWorld 0 "SELECT a, a, b FROM t").1
      = .ok [⟨[("a", "2"), ("b", "3")]⟩, ⟨[("a", "5"), ("b", "6")]⟩] ∧
    ∃ rows cols, (envAnswering dupRows).dbQuery freshWorld.trace 0 "SELECT a, a, b FROM t"
        = .ok rows ∧ rows.columns = .ok cols ∧
      ∀ m ∈ [(⟨[("a", "2"), ("b", "3")]⟩ : GoMap), ⟨[("a", "5"), ("b", "6")]⟩],
        m.keys.Nodup ∧ ∀ k, k ∈ m.keys ↔ k ∈ cols :=
  ⟨by decide, queryDatabase_key_set _ _ _ _ _ (by decide)⟩

/-- C7 (evaluation at the failing input): a cell delivered as the `int64` 1 is
rendered as the bad-verb text of `fmt`, and the result of `SELECT 1` with such a
cell is one row map whose single value is that text, not the numeral `1`. -/
theorem queryDatabase_select_one_int64 :
    sprintfS (.int64 1) = "%!s(int64=1)" ∧
    (queryDatabase (envAnswering selectOneInt) freshWorld 0 "SELECT 1").1
      = .ok [⟨[("?column?", "%!s(int64=1)")]⟩] := by
  decide

/-- C9: when `queryDatabase` succeeds, the result has as many row maps as the
cursor delivered rows, and for every index the map at that index is the
flattening (lines 136-140) of the row the cursor delivered at that index. -/
theorem queryDatabase_rows_in_order (env : Env) (w : World) (db : Nat) (query : String)
    (res : List GoMap) (h : (queryDatabase env w db query).1 = .ok res) :
    ∃ rows cols, env.dbQuery w.trace db query = .ok rows ∧ rows.columns = .ok cols ∧
      res.length = rows.stream.rows.length ∧
      ∀ i, i < rows.stream.rows.length → ∃ vals, rows.stream.rows[i]? = some (.ok vals) ∧
        res[i]? = some (flattenRow cols vals) := by
  unfold queryDatabase at h
  cases hq : env.dbQuery w.trace db query with
  | error e => simp [hq] at h
  | ok rows =>
    cases hc : rows.columns with
    | error e => simp [hq, hc] at h
    | ok cols =>
      simp only [hq, hc] at h
      obtain ⟨vs, h1, -, h3⟩ := scanLoop_ok cols rows.stream [] res h
      refine ⟨rows, cols, rfl, hc, by simp [h1, h3], ?_⟩
      intro i hi
      rw [h1, List.length_map] at hi
      refine ⟨vs[i], ?_, ?_⟩
      · simp [h1, List.getElem?_eq_getElem hi]
      · simp [h3, List.getElem?_eq_getElem hi]

/-- Witness of C9: the two rows of `dupRows` come back in their order. -/
theorem queryDatabase_rows_in_order_witness :
    (queryDatabase (envAnswering dupRows) freshWorld 0 "SELECT a, a, b FROM t").1
      = .ok [flattenRow ["a", "a", "b"] [.bytes "1", .bytes "2", .bytes "3"],
          flattenRow ["a", "a", "b"] [.bytes "4", .bytes "5", .bytes "6"]] ∧
    ∃ rows cols, (envAnswering dupRows).dbQuery freshWorld.trace 0 "SELECT a, a, b FROM t"
        = .ok rows ∧ rows.columns = .ok cols ∧
      [flattenRow ["a", "a", "b"] [.bytes "1", .bytes "2", .bytes "3"],
          flattenRow ["a", "a", "b"] [.bytes "4", .bytes "5", .bytes "6"]].length
        = rows.stream.rows.length ∧
      ∀ i, i < rows.stream.rows.length → ∃ vals, rows.stream.rows[i]? = some (.ok vals) ∧
        [flattenRow ["a", "a", "b"] [.bytes "1", .bytes "2", .bytes "3"],
          flattenRow ["a", "a", "b"] [.bytes "4", .bytes "5", .bytes "6"]][i]?
          = some (flattenRow cols vals) :=
  ⟨by decide, queryDatabase_rows_in_order _ _ _ _ _ (by decide)⟩

/-! ## Connection negotiation -/

/-- C1 (counterexample): signing fails, the database would accept the static
secret, and yet the request fails with the signing error without a single
call of `createDatabaseConnection`. -/
theorem handleRequest_signing_failure_no_fallback :
    signing pgConfig envNoToken freshWorld = .error ⟨"NoCredentialProviders"⟩ ∧
    (createDatabaseConnection envNoToken
      (handleRequest pgConfig envNoToken freshWorld ⟨"SELECT 1", ""⟩).2
      "postgres" "app" "initial" "db.local" 5432 "main").1 = .connected 0 ∧
    (handleRequest pgConfig envNoToken freshWorld ⟨"SELECT 1", ""⟩).1
      = .error ⟨"NoCredentialProviders"⟩ ∧
    connectionAttempts (eventsSince freshWorld
      (handleRequest pgConfig envNoToken freshWorld ⟨"SELECT 1", ""⟩).2) = [] := by
  decide

/-- C1 (amended): when `rdsutils.BuildAuthToken` returns an error, `handleRequest`
returns that error at once: the events of the request are the log line, the
signing call and the log line of the failure, so no connection attempt is made,
neither with the token nor with the static secret. -/
theorem handleRequest_signing_failure (cfg : Config) (env : Env) (w : World)
    (req : QueryRequest) (err : GoError) (hs : signing cfg env w = .error err) :
    (handleRequest cfg env w req).1 = .error err ∧
    eventsSince w (handleRequest cfg env w req).2 =
      [.log "getting RDS IAM auth token",
        .buildAuthToken (endpoint cfg) cfg.region cfg.dbUser,
        .log ("unable to generate database token " ++ err.msg)] ∧
    connectionAttempts (eventsSince w (handleRequest cfg env w req).2) = [] := by
  have ht : (handleRequest cfg env w req).2.trace = w.trace ++
      [.log "getting RDS IAM auth token",
        .buildAuthToken (endpoint cfg) cfg.region cfg.dbUser,
        .log ("unable to generate database token " ++ err.msg)] := by
    rw [handleRequest_eq, hs]
    simp [World.emit]
  refine ⟨by rw [handleRequest_eq, hs], eventsSince_of_trace _ _ _ ht, ?_⟩
  rw [eventsSince_of_trace _ _ _ ht]
  rfl

/-- Witness of C1 (amended): the environment without ambient credentials. -/
theorem handleRequest_signing_failure_witness :
    signing pgConfig envNoToken freshWorld = .error ⟨"NoCredentialProviders"⟩ ∧
    ((handleRequest pgConfig envNoToken freshWorld ⟨"SELECT 1", ""⟩).1
        = .error ⟨"NoCredentialProviders"⟩ ∧
      eventsSince freshWorld (handleRequest pgConfig envNoToken freshWorld ⟨"SELECT 1", ""⟩).2 =
        [.log "getting RDS IAM auth token",
          .buildAuthToken (endpoint pgConfig) pgConfig.region pgConfig.dbUser,
          .log ("unable to generate database token "
            ++ (⟨"NoCredentialProviders"⟩ : GoError).msg)] ∧
      connectionAttempts (eventsSince freshWorld
        (handleRequest pgConfig envNoToken freshWorld ⟨"SELECT 1", ""⟩).2) = []) :=
  ⟨by decide, handleRequest_signing_failure pgConfig envNoToken freshWorld ⟨"SELECT 1", ""⟩
    ⟨"NoCredentialProviders"⟩ (by decide)⟩

/-- C2: when the token is signed and the connection attempt with the token
succeeds (open and probe), the request makes exactly one call of
`createDatabaseConnection`, the one with the token; no attempt with the static
secret follows. -/
theorem handleRequest_identity_success_single_attempt (cfg : Config) (env : Env) (w : World)
    (req : QueryRequest) (token : String) (db : Nat) (w4 : World)
    (hs : signing cfg env w = .ok token)
    (hi : identityAttempt cfg env w req token = (.connected db, w4)) :
    connectionAttempts (eventsSince w (handleRequest cfg env w req).2) =
      [.createDatabaseConnection cfg.dbEngine cfg.dbUser token cfg.dbHost cfg.dbPort
        (effectiveDatabase cfg req)] := by
  rcases handleRequest_cases cfg env w req with
    ⟨err, hs', -⟩ | ⟨token', db', w4', p1, m, hs', hi', hp1, ht⟩ |
    ⟨token', d1, e1, w4', d2, e2, w6, p1, p2, hs', hi', -⟩ |
    ⟨token', d1, e1, w4', db', w6, p1, p2, m, hs', hi', -⟩
  · rw [hs] at hs'
    cases hs'
  · rw [hs] at hs'
    cases hs'
    rw [eventsSince_of_trace _ _ _ ht]
    have hp := connectionAttempts_probeSteps p1 hp1
    simp only [connectionAttempts, List.filter_append] at hp ⊢
    rw [hp]
    rfl
  · rw [hs] at hs'
    cases hs'
    rw [hi] at hi'
    cases hi'
  · rw [hs] at hs'
    cases hs'
    rw [hi] at hi'
    cases hi'

/-- Witness of C2: every call succeeds. -/
theorem handleRequest_identity_success_single_attempt_witness :
    signing pgConfig (envAnswering selectOneBytes) freshWorld = .ok "token" ∧
    (identityAttempt pgConfig (envAnswering selectOneBytes) freshWorld ⟨"SELECT 1", ""⟩
      "token").1 = .connected 0 ∧
    connectionAttempts (eventsSince freshWorld
      (handleRequest pgConfig (envAnswering selectOneBytes) freshWorld ⟨"SELECT 1", ""⟩).2) =
      [.createDatabaseConnection pgConfig.dbEngine pgConfig.dbUser "token" pgConfig.dbHost
        pgConfig.dbPort (effectiveDatabase pgConfig ⟨"SELECT 1", ""⟩)] :=
  ⟨by decide, by decide,
    handleRequest_identity_success_single_attempt pgConfig (envAnswering selectOneBytes)
      freshWorld ⟨"SELECT 1", ""⟩ "token" 0
      (identityAttempt pgConfig (envAnswering selectOneBytes) freshWorld ⟨"SELECT 1", ""⟩
        "token").2 (by decide) (by decide)⟩

/-- C3: when the token is signed, the connection attempt with the token fails
with `e1` and the attempt with the static secret fails with `e2`, the request
returns no response and the error `e2`, and its connection attempts are
exactly two: the one with the token, then one with the static secret for the
same engine, user, host, port and database. -/
theorem handleRequest_both_attempts_fail (cfg : Config) (env : Env) (w : World)
    (req : QueryRequest) (token : String) (d1 d2 : Option Nat) (e1 e2 : GoError)
    (w4 w6 : World)
    (hs : signing cfg env w = .ok token)
    (hi : identityAttempt cfg env w req token = (.failed d1 e1, w4))
    (hf : fallbackAttempt cfg env w4 req e1 = (.failed d2 e2, w6)) :
    (handleRequest cfg env w req).1 = .error e2 ∧
    connectionAttempts (eventsSince w (handleRequest cfg env w req).2) =
      [.createDatabaseConnection cfg.dbEngine cfg.dbUser token cfg.dbHost cfg.dbPort
          (effectiveDatabase cfg req),
        .createDatabaseConnection cfg.dbEngine cfg.dbUser cfg.dbPasswordInitial cfg.dbHost
          cfg.dbPort (effectiveDatabase cfg req)] := by
  rcases handleRequest_cases cfg env w req with
    ⟨err, hs', -⟩ | ⟨token', db', w4', p1, m, hs', hi', -⟩ |
    ⟨token', d1', e1', w4', d2', e2', w6', p1, p2, hs', hi', hf', hp1, hp2, hr, ht⟩ |
    ⟨token', d1', e1', w4', db', w6', p1, p2, m, hs', hi', hf', -⟩
  · rw [hs] at hs'
    cases hs'
  · rw [hs] at hs'
    cases hs'
    rw [hi] at hi'
    cases hi'
  · rw [hs] at hs'
    cases hs'
    rw [hi] at hi'
    cases hi'
    rw [hf] at hf'
    cases hf'
    refine ⟨hr, ?_⟩
    rw [eventsSince_of_trace _ _ _ ht]
    have hq1 := connectionAttempts_probeSteps p1 hp1
    have hq2 := connectionAttempts_probeSteps p2 hp2
    simp only [connectionAttempts, List.filter_append] at hq1 hq2 ⊢
    rw [hq1, hq2]
    rfl
  · rw [hs] at hs'
    cases hs'
    rw [hi] at hi'
    cases hi'
    rw [hf] at hf'
    cases hf'

/-- Witness of C3: the database rejects the token and the static secret. -/
theorem handleRequest_both_attempts_fail_witness :
    signing pgConfig envAllRejected freshWorld = .ok "token" ∧
    (handleRequest pgConfig envAllRejected freshWorld ⟨"SELECT 1", ""⟩).1
      = .error ⟨"pq: no pg_hba.conf entry"⟩ ∧
    connectionAttempts (eventsSince freshWorld
      (handleRequest pgConfig envAllRejected freshWorld ⟨"SELECT 1", ""⟩).2) =
      [.createDatabaseConnection pgConfig.dbEngine pgConfig.dbUser "token" pgConfig.dbHost
          pgConfig.dbPort (effectiveDatabase pgConfig ⟨"SELECT 1", ""⟩),
        .createDatabaseConnection pgConfig.dbEngine pgConfig.dbUser pgConfig.dbPasswordInitial
          pgConfig.dbHost pgConfig.dbPort (effectiveDatabase pgConfig ⟨"SELECT 1", ""⟩)] :=
  ⟨by decide,
    handleRequest_both_attempts_fail pgConfig envAllRejected freshWorld ⟨"SELECT 1", ""⟩
      "token" (some 0) (some 1) ⟨"pq: password authentication failed"⟩
      ⟨"pq: no pg_hba.conf entry"⟩
      (identityAttempt pgConfig envAllRejected freshWorld ⟨"SELECT 1", ""⟩ "token").2
      (fallbackAttempt pgConfig envAllRejected
        (identityAttempt pgConfig envAllRejected freshWorld ⟨"SELECT 1", ""⟩ "token").2
        ⟨"SELECT 1", ""⟩ ⟨"pq: password authentication failed"⟩).2
      (by decide) (by decide) (by decide)⟩

/-- C4 (evaluation at the failing inputs): when the database rejects the token
and accepts the static secret, the request succeeds and the handle of the
identity attempt (handle 0) is still open when it returns; when the database
rejects both credentials, both handles are still open. -/
theorem handleRequest_leaves_handles_open :
    (handleRequest pgConfig envTokenRejected freshWorld ⟨"SELECT 1", ""⟩).1
      = .ok ⟨[⟨[("1", "1")]⟩]⟩ ∧
    openHandles (eventsSince freshWorld
      (handleRequest pgConfig envTokenRejected freshWorld ⟨"SELECT 1", ""⟩).2) [] = [0] ∧
    openHandles (eventsSince freshWorld
      (handleRequest pgConfig envAllRejected freshWorld ⟨"SELECT 1", ""⟩).2) [] = [0, 1] := by
  decide

/-- C8 (counterexample): with the engine identifier `oracle` the signing call
is performed before the engine is looked at, and when signing fails the
request fails with the signing error, not with the invalid-engine error. -/
theorem handleRequest_invalid_engine_signs_first :
    (handleRequest oracleConfig (envAnswering selectOneBytes) freshWorld ⟨"SELECT 1", ""⟩).1
      = .error ⟨"invalid database engine specified"⟩ ∧
    (eventsSince freshWorld
      (handleRequest oracleConfig (envAnswering selectOneBytes) freshWorld
        ⟨"SELECT 1", ""⟩).2).filter Event.isBuildAuthToken
      = [.buildAuthToken "db.local:5432" "eu-west-1" "app"] ∧
    (handleRequest oracleConfig envNoToken freshWorld ⟨"SELECT 1", ""⟩).1
      = .error ⟨"NoCredentialProviders"⟩ := by
  decide

/-- C8 (amended): for an engine identifier other than `mysql` and `postgres`,
`handleRequest` performs no `sql.Open` and no query; it performs the signing
call once, and when signing succeeds it fails with the invalid-engine error
after the two calls of `createDatabaseConnection` (token, static secret). -/
theorem handleRequest_invalid_engine (cfg : Config) (env : Env) (w : World)
    (req : QueryRequest) (h1 : cfg.dbEngine ≠ "mysql") (h2 : cfg.dbEngine ≠ "postgres") :
    (∀ e ∈ eventsSince w (handleRequest cfg env w req).2,
      e.isSqlOpen = false ∧ e.isDbQuery = false) ∧
    (eventsSince w (handleRequest cfg env w req).2).filter Event.isBuildAuthToken
      = [.buildAuthToken (endpoint cfg) cfg.region cfg.dbUser] ∧
    (∀ token, signing cfg env w = .ok token →
      (handleRequest cfg env w req).1 = .error ⟨"invalid database engine specified"⟩ ∧
      connectionAttempts (eventsSince w (handleRequest cfg env w req).2) =
        [.createDatabaseConnection cfg.dbEngine cfg.dbUser token cfg.dbHost cfg.dbPort
            (effectiveDatabase cfg req),
          .createDatabaseConnection cfg.dbEngine cfg.dbUser cfg.dbPasswordInitial cfg.dbHost
            cfg.dbPort (effectiveDatabase cfg req)]) := by
  cases hs : signing cfg env w with
  | error err =>
    have ht : (handleRequest cfg env w req).2.trace = w.trace ++
        [.log "getting RDS IAM auth token",
          .buildAuthToken (endpoint cfg) cfg.region cfg.dbUser,
          .log ("unable to generate database token " ++ err.msg)] := by
      rw [handleRequest_eq, hs]
      simp [World.emit]
    rw [eventsSince_of_trace _ _ _ ht]
    refine ⟨?_, rfl, ?_⟩
    · intro e he
      simp only [List.mem_cons, List.mem_singleton, List.not_mem_nil, or_false] at he
      rcases he with rfl | rfl | rfl <;> exact ⟨rfl, rfl⟩
    · intro token ht'
      cases ht'
  | ok token =>
    have hr : handleRequest cfg env w req =
        (.error ⟨"invalid database engine specified"⟩,
          ⟨w.trace ++ [.log "getting RDS IAM auth token",
            .buildAuthToken (endpoint cfg) cfg.region cfg.dbUser,
            .log "creating database connection",
            .createDatabaseConnection cfg.dbEngine cfg.dbUser token cfg.dbHost cfg.dbPort
              (effectiveDatabase cfg req),
            .log ("unable to open db connection using iam auth "
              ++ "invalid database engine specified"),
            .createDatabaseConnection cfg.dbEngine cfg.dbUser cfg.dbPasswordInitial cfg.dbHost
              cfg.dbPort (effectiveDatabase cfg req),
            .log ("unable to open db connection using initial password "
              ++ "invalid database engine specified")], w.nextDb⟩) := by
      rw [handleRequest_eq, hs]
      simp only [identityAttempt, fallbackAttempt,
        createDatabaseConnection_invalid _ _ _ _ _ _ _ _ h1 h2]
      simp [World.emit, beforeIdentity]
    have hres := congrArg Prod.fst hr
    have htr := congrArg (fun x => x.2.trace) hr
    simp only [] at hres htr
    rw [eventsSince_of_trace w _ _ htr]
    refine ⟨?_, rfl, ?_⟩
    · intro e he
      simp only [List.mem_cons, List.mem_singleton, List.not_mem_nil, or_false] at he
      rcases he with rfl | rfl | rfl | rfl | rfl | rfl | rfl <;> exact ⟨rfl, rfl⟩
    · intro token' ht'
      cases ht'
      exact ⟨hres, rfl⟩

/-- Witness of C8 (amended): the engine identifier `oracle`. -/
theorem handleRequest_invalid_engine_witness :
    (∀ e ∈ eventsSince freshWorld
        (handleRequest oracleConfig (envAnswering selectOneBytes) freshWorld
          ⟨"SELECT 1", ""⟩).2,
      e.isSqlOpen = false ∧ e.isDbQuery = false) ∧
    (eventsSince freshWorld
        (handleRequest oracleConfig (envAnswering selectOneBytes) freshWorld
          ⟨"SELECT 1", ""⟩).2).filter Event.isBuildAuthToken
      = [.buildAuthToken (endpoint oracleConfig) oracleConfig.region oracleConfig.dbUser] ∧
    (∀ token, signing oracleConfig (envAnswering selectOneBytes) freshWorld = .ok token →
      (handleRequest oracleConfig (envAnswering selectOneBytes) freshWorld
        ⟨"SELECT 1", ""⟩).1 = .error ⟨"invalid database engine specified"⟩ ∧
      connectionAttempts (eventsSince freshWorld
        (handleRequest oracleConfig (envAnswering selectOneBytes) freshWorld
          ⟨"SELECT 1", ""⟩).2) =
        [.createDatabaseConnection oracleConfig.dbEngine oracleConfig.dbUser token
            oracleConfig.dbHost oracleConfig.dbPort
            (effectiveDatabase oracleConfig ⟨"SELECT 1", ""⟩),
          .createDatabaseConnection oracleConfig.dbEngine oracleConfig.dbUser
            oracleConfig.dbPasswordInitial oracleConfig.dbHost oracleConfig.dbPort
            (effectiveDatabase oracleConfig ⟨"SELECT 1", ""⟩)]) :=
  handleRequest_invalid_engine oracleConfig (envAnswering selectOneBytes) freshWorld
    ⟨"SELECT 1", ""⟩ (by decide) (by decide)

/-- C10: in every request, every call of `createDatabaseConnection` receives
as database name the request's `Database` when it is non-empty and the
configured `rds-database` otherwise; every query sent is the probe `SELECT 1`
or the request's `Query`; and whenever a handle is closed, the request ends
with the log line of line 69, the query `req.Query` on that handle, one more
log line and the close. -/
theorem handleRequest_database_and_query (cfg : Config) (env : Env) (w : World)
    (req : QueryRequest) :
    (∀ engine user password host port database,
      Event.createDatabaseConnection engine user password host port database
          ∈ eventsSince w (handleRequest cfg env w req).2 →
        database = (if req.Database ≠ "" then req.Database else cfg.dbName)) ∧
    (∀ db query, Event.dbQuery db query ∈ eventsSince w (handleRequest cfg env w req).2 →
      query = "SELECT 1" ∨ query = req.Query) ∧
    (∀ db, Event.dbClose db ∈ eventsSince w (handleRequest cfg env w req).2 →
      ∃ pre m, eventsSince w (handleRequest cfg env w req).2 =
        pre ++ [.log "querying database", .dbQuery db req.Query, .log m, .dbClose db]) := by
  rcases handleRequest_cases cfg env w req with
    ⟨err, -, -, ht⟩ | ⟨token, db', w4, p1, m, -, -, hp1, ht⟩ |
    ⟨token, d1, e1, w4, d2, e2, w6, p1, p2, -, -, -, hp1, hp2, -, ht⟩ |
    ⟨token, d1, e1, w4, db', w6, p1, p2, m, -, -, -, hp1, hp2, ht⟩
  · rw [eventsSince_of_trace _ _ _ ht]
    refine ⟨?_, ?_, ?_⟩ <;> intros <;> simp_all
  · rw [eventsSince_of_trace _ _ _ ht]
    have a1 := probeSteps_not_attempt p1 hp1
    have c1 := probeSteps_not_close p1 hp1
    have q1 := probeSteps_query p1 hp1
    refine ⟨?_, ?_, ?_⟩
    · intro engine user password host port database hm
      simp only [List.mem_append, List.mem_cons, List.mem_singleton, List.not_mem_nil,
        or_false, a1, reduceCtorEq, false_or, Event.createDatabaseConnection.injEq] at hm
      exact hm.2.2.2.2.2
    · intro db query hm
      simp only [List.mem_append, List.mem_cons, List.mem_singleton, List.not_mem_nil,
        or_false, reduceCtorEq, false_or, Event.dbQuery.injEq] at hm
      rcases hm with hm | hm
      · exact Or.inl (q1 _ _ hm)
      · exact Or.inr hm.2
    · intro db hm
      simp only [List.mem_append, List.mem_cons, List.mem_singleton, List.not_mem_nil,
        or_false, c1, reduceCtorEq, false_or, Event.dbClose.injEq] at hm
      subst hm
      exact ⟨[.log "getting RDS IAM auth token",
        .buildAuthToken (endpoint cfg) cfg.region cfg.dbUser,
        .log "creating database connection",
        .createDatabaseConnection cfg.dbEngine cfg.dbUser token cfg.dbHost cfg.dbPort
          (effectiveDatabase cfg req)] ++ p1 ++
        [.log "connected to the database using IAM auth"], m, by simp⟩
  · rw [eventsSince_of_trace _ _ _ ht]
    have a1 := probeSteps_not_attempt p1 hp1
    have c1 := probeSteps_not_close p1 hp1
    have q1 := probeSteps_query p1 hp1
    have a2 := probeSteps_not_attempt p2 hp2
    have c2 := probeSteps_not_close p2 hp2
    have q2 := probeSteps_query p2 hp2
    refine ⟨?_, ?_, ?_⟩
    · intro engine user password host port database hm
      simp only [List.mem_append, List.mem_cons, List.mem_singleton, List.not_mem_nil,
        or_false, a1, a2, reduceCtorEq, false_or, or_false,
        Event.createDatabaseConnection.injEq] at hm
      rcases hm with hm | hm
      · exact hm.2.2.2.2.2
      · exact hm.2.2.2.2.2
    · intro db query hm
      simp only [List.mem_append, List.mem_cons, List.mem_singleton, List.not_mem_nil,
        or_false, reduceCtorEq, false_or, Event.dbQuery.injEq] at hm
      rcases hm with hm | hm
      · exact Or.inl (q1 _ _ hm)
      · exact Or.inl (q2 _ _ hm)
    · intro db hm
      simp [c1, c2] at hm
  · rw [eventsSince_of_trace _ _ _ ht]
    have a1 := probeSteps_not_attempt p1 hp1
    have c1 := probeSteps_not_close p1 hp1
    have q1 := probeSteps_query p1 hp1
    have a2 := probeSteps_not_attempt p2 hp2
    have c2 := probeSteps_not_close p2 hp2
    have q2 := probeSteps_query p2 hp2
    refine ⟨?_, ?_, ?_⟩
    · intro engine user password host port database hm
      simp only [List.mem_append, List.mem_cons, List.mem_singleton, List.not_mem_nil,
        or_false, a1, a2, reduceCtorEq, false_or, or_false,
        Event.createDatabaseConnection.injEq] at hm
      rcases hm with hm | hm
      · exact hm.2.2.2.2.2
      · exact hm.2.2.2.2.2
    · intro db query hm
      simp only [List.mem_append, List.mem_cons, List.mem_singleton, List.not_mem_nil,
        or_false, reduceCtorEq, false_or, Event.dbQuery.injEq] at hm
      rcases hm with (hm | hm) | hm
      · exact Or.inl (q1 _ _ hm)
      · exact Or.inl (q2 _ _ hm)
      · exact Or.inr hm.2
    · intro db hm
      simp only [List.mem_append, List.mem_cons, List.mem_singleton, List.not_mem_nil,
        or_false, c1, c2, reduceCtorEq, false_or, Event.dbClose.injEq] at hm
      subst hm
      exact ⟨[.log "getting RDS IAM auth token",
        .buildAuthToken (endpoint cfg) cfg.region cfg.dbUser,
        .log "creating database connection",
        .createDatabaseConnection cfg.dbEngine cfg.dbUser token cfg.dbHost cfg.dbPort
          (effectiveDatabase cfg req)] ++ p1 ++
        [.log ("unable to open db connection using iam auth " ++ e1.msg),
        .createDatabaseConnection cfg.dbEngine cfg.dbUser cfg.dbPasswordInitial cfg.dbHost
          cfg.dbPort (effectiveDatabase cfg req)] ++ p2 ++
        [.log "connected to the database using initial password"], m, by simp⟩

end DbQueryLambda
